import Mathlib

/-!
Shallow embedding of the FemtoRV32 Quark SystemC model
(`FemtoRV/femtorv32_systemc/femtorv32_quark.{h,cpp}`).

Every member variable of the `FemtoRV32_Quark` module becomes a field of the
`Quark` structure; each C++ member function becomes a Lean function
`Quark → Quark` (threading the input ports through an `Inputs` record).
`sc_uint<N>` values are modelled as `Nat` with an explicit `% 2 ^ N` at every
assignment whose right-hand side can exceed N bits, exactly where the C++
assignment would truncate.  Bit selects `x[i]` are `Nat.testBit`, and range
selects `x.range(hi, lo)` are `rng x hi lo` below.  SystemC concatenation
`(a, b)` of an M-bit and an N-bit value is `a * 2 ^ N + b`; in particular a
`sc_uint<N>(bit)` conversion contributes the numeric value 0 or 1 (it does
not replicate the bit).
-/

set_option maxHeartbeats 1000000
set_option maxRecDepth 2048

/-- Range select `x.range(hi, lo)` of a SystemC unsigned: bits `hi..lo`. -/
def rng (x hi lo : Nat) : Nat := x / 2 ^ lo % 2 ^ (hi - lo + 1)

/-- Numeric value (0 or 1) of bit `i` of `x`, as produced by an
`sc_uint<N>(x[i])` conversion. -/
def bitv (x i : Nat) : Nat := x / 2 ^ i % 2

/-- Control-FSM states, from the `State` enum in `femtorv32_quark.h`. -/
inductive MState where
  | FETCH_INSTR
  | WAIT_INSTR
  | EXECUTE
  | WAIT_ALU_OR_MEM
deriving DecidableEq, Repr

/-- Input ports of `FemtoRV32_Quark` sampled by its processes:
`reset`, `mem_rdata`, `mem_rbusy`, `mem_wbusy`. -/
structure Inputs where
  reset : Bool
  mem_rdata : Nat
  mem_rbusy : Bool
  mem_wbusy : Bool
deriving DecidableEq, Repr

/-- All member variables of the `FemtoRV32_Quark` module (architectural
registers, latched decode fields, derived combinational signals and the
driven output ports), as one record. -/
structure Quark where
  PC : Nat
  instr : Nat
  full_instr : Nat
  state : MState
  cycles : Nat
  registerFile : List Nat
  aluReg : Nat
  aluShamt : Nat
  rdId : Nat
  rs1Id : Nat
  rs2Id : Nat
  funct3 : Nat
  opcode : Nat
  rs1 : Nat
  rs2 : Nat
  Uimm : Nat
  Iimm : Nat
  Simm : Nat
  Bimm : Nat
  Jimm : Nat
  isLoad : Bool
  isALUimm : Bool
  isStore : Bool
  isALUreg : Bool
  isSYSTEM : Bool
  isJAL : Bool
  isJALR : Bool
  isLUI : Bool
  isAUIPC : Bool
  isBranch : Bool
  isALU : Bool
  aluIn1 : Nat
  aluIn2 : Nat
  aluOut : Nat
  aluPlus : Nat
  aluMinus : Nat
  LT : Bool
  LTU : Bool
  EQ : Bool
  aluBusy : Bool
  aluWr : Bool
  funct3IsShift : Bool
  predicate : Bool
  mem_byteAccess : Bool
  mem_halfwordAccess : Bool
  loadstore_addr : Nat
  LOAD_data : Nat
  LOAD_halfword : Nat
  LOAD_byte : Nat
  LOAD_sign : Bool
  STORE_wmask : Nat
  writeBack : Bool
  jumpToPCplusImm : Bool
  needToWait : Bool
  PCplus4 : Nat
  PCplusImm : Nat
  writeBackData : Nat
  mem_addr : Nat
  mem_wdata : Nat
  mem_wmask : Nat
  mem_rstrb : Bool
deriving DecidableEq, Repr

/-- Configured reset address (`DEFAULT_RESET_ADDR`). -/
def RESET_ADDR : Nat := 0

/-- Configured address-bus width (`DEFAULT_ADDR_WIDTH`). -/
def ADDR_WIDTH : Nat := 24

/-- Decoder (`FemtoRV32_Quark::decode_instruction`): when
`state == WAIT_INSTR && !mem_rbusy`, latch the instruction word from
`mem_rdata`, extract its fields, read the two source registers, and set the
instruction-class flags; otherwise keep the existing values. -/
def decode_instruction (i : Inputs) (q : Quark) : Quark :=
  if q.state = MState.WAIT_INSTR ∧ i.mem_rbusy = false then
    let instruction := i.mem_rdata % 2 ^ 32
    let rdId := rng instruction 11 7
    let rs1Id := rng instruction 19 15
    let rs2Id := rng instruction 24 20
    { q with
      rdId := rdId
      rs1Id := rs1Id
      rs2Id := rs2Id
      funct3 := rng instruction 14 12
      opcode := rng instruction 6 0
      instr := rng instruction 31 2
      full_instr := instruction
      rs1 := q.registerFile.getD rs1Id 0
      rs2 := q.registerFile.getD rs2Id 0
      isLoad := decide (rng instruction 6 2 = 0x00)
      isALUimm := decide (rng instruction 6 2 = 0x04)
      isStore := decide (rng instruction 6 2 = 0x08)
      isALUreg := decide (rng instruction 6 2 = 0x0C)
      isSYSTEM := decide (rng instruction 6 2 = 0x1C)
      isJAL := instruction.testBit 3
      isJALR := decide (rng instruction 6 2 = 0x19)
      isLUI := decide (rng instruction 6 2 = 0x0D)
      isAUIPC := decide (rng instruction 6 2 = 0x05)
      isBranch := decide (rng instruction 6 2 = 0x18)
      isALU := (decide (rng instruction 6 2 = 0x04) || decide (rng instruction 6 2 = 0x0C)) }
  else q

/-- Immediate extraction (`FemtoRV32_Quark::compute_immediates`), including
the U-type "truncation workaround" branch taken when the instruction value is
below `0x10000` and its opcode is AUIPC (`0x17`) or LUI (`0x37`).  The S/B/J
immediates are SystemC concatenations in which the would-be replicated sign
bit enters as a single `sc_uint<21>/<20>/<12>` numeric conversion of one bit. -/
def compute_immediates (q : Quark) : Quark :=
  let instr_val := q.full_instr
  let opc := instr_val % 0x80
  let Uimm :=
    if (opc = 0x17 ∨ opc = 0x37) ∧ instr_val < 0x10000 then
      if opc = 0x17 then
        0x00000000
      else
        let truncated_imm := instr_val / 2 ^ 12 % 0x10
        truncated_imm * 2 ^ 12
    else
      bitv q.full_instr 31 * 2 ^ 31 + rng q.full_instr 30 12 * 2 ^ 12
  let Iimm := (if q.full_instr.testBit 31 then 0xFFFFF000 else 0x00000000) ||| rng q.full_instr 31 20
  let Simm := bitv q.instr 29 * 2 ^ 11 + rng q.instr 28 23 * 2 ^ 5 + rng q.instr 9 5
  let Bimm := bitv q.instr 29 * 2 ^ 12 + bitv q.instr 5 * 2 ^ 11 +
    rng q.instr 28 23 * 2 ^ 5 + rng q.instr 9 6 * 2 ^ 1 + 0
  let Jimm := bitv q.instr 29 * 2 ^ 20 + rng q.instr 17 10 * 2 ^ 12 +
    bitv q.instr 18 * 2 ^ 11 + rng q.instr 28 19 * 2 ^ 1 + 0
  { q with Uimm := Uimm, Iimm := Iimm, Simm := Simm, Bimm := Bimm, Jimm := Jimm }

/-- ALU (`FemtoRV32_Quark::compute_alu`): operand selection, the 33-bit
subtract trick, comparison flags, result selection by `funct3`, the
shift-class test and the busy flag. -/
def compute_alu (q : Quark) : Quark :=
  let aluIn1 := q.rs1
  let aluIn2 := if q.isALUreg || q.isBranch then q.rs2 else q.Iimm
  let aluPlus := (aluIn1 + aluIn2) % 2 ^ 32
  let aluMinus := (2 ^ 32 + (2 ^ 32 - 1 - aluIn2 % 2 ^ 32) + aluIn1 + 1) % 2 ^ 33
  let LT := if aluIn1.testBit 31 ≠ aluIn2.testBit 31 then aluIn1.testBit 31 else aluMinus.testBit 32
  let LTU := aluMinus.testBit 32
  let EQ := decide (aluMinus % 2 ^ 32 = 0)
  let aluOut :=
    if q.funct3 = 0 then
      (if q.instr.testBit 28 ∧ q.instr.testBit 3 then aluMinus % 2 ^ 32 else aluPlus)
    else if q.funct3 = 2 then (if LT then 1 else 0)
    else if q.funct3 = 3 then (if LTU then 1 else 0)
    else if q.funct3 = 4 then aluIn1 ^^^ aluIn2
    else if q.funct3 = 6 then aluIn1 ||| aluIn2
    else if q.funct3 = 7 then aluIn1 &&& aluIn2
    else if q.funct3 = 1 ∨ q.funct3 = 5 then q.aluReg
    else 0
  { q with
    aluIn1 := aluIn1
    aluIn2 := aluIn2
    aluPlus := aluPlus
    aluMinus := aluMinus
    LT := LT
    LTU := LTU
    EQ := EQ
    aluOut := aluOut
    funct3IsShift := (decide (q.funct3 = 1) || decide (q.funct3 = 5))
    aluBusy := decide (q.aluShamt ≠ 0) }

/-- Branch predicate (`FemtoRV32_Quark::compute_branch_predicate`). -/
def compute_branch_predicate (q : Quark) : Quark :=
  { q with predicate :=
      (decide (q.funct3 = 0) && q.EQ) ||
      (decide (q.funct3 = 1) && !q.EQ) ||
      (decide (q.funct3 = 4) && q.LT) ||
      (decide (q.funct3 = 5) && !q.LT) ||
      (decide (q.funct3 = 6) && q.LTU) ||
      (decide (q.funct3 = 7) && !q.LTU) }

/-- Load/store aligner (`FemtoRV32_Quark::compute_memory_access`): access-size
flags from `instr.range(13,12)` (bits 15:14 of the instruction word, since
`instr` drops the two low bits), effective address, load slice selection and
extension, and the store byte mask. -/
def compute_memory_access (i : Inputs) (q : Quark) : Quark :=
  let W := i.mem_rdata % 2 ^ 32
  let mem_byteAccess := decide (rng q.instr 13 12 = 0)
  let mem_halfwordAccess := decide (rng q.instr 13 12 = 1)
  let loadstore_addr :=
    rng q.rs1 (ADDR_WIDTH - 1) 0 +
      (if q.isStore then rng q.Simm (ADDR_WIDTH - 1) 0 else rng q.Iimm (ADDR_WIDTH - 1) 0)
  let LOAD_halfword := if loadstore_addr.testBit 1 then rng W 31 16 else rng W 15 0
  let LOAD_byte := if loadstore_addr.testBit 0 then rng LOAD_halfword 15 8 else rng LOAD_halfword 7 0
  let LOAD_sign :=
    !(q.instr.testBit 12) &&
      (if mem_byteAccess then LOAD_byte.testBit 7 else LOAD_halfword.testBit 15)
  let LOAD_data :=
    if mem_byteAccess then LOAD_sign.toNat * 2 ^ 8 + LOAD_byte
    else if mem_halfwordAccess then LOAD_sign.toNat * 2 ^ 16 + LOAD_halfword
    else W
  let STORE_wmask :=
    if mem_byteAccess then
      if loadstore_addr.testBit 1 then
        (if loadstore_addr.testBit 0 then 0x8 else 0x4)
      else
        (if loadstore_addr.testBit 0 then 0x2 else 0x1)
    else if mem_halfwordAccess then
      (if loadstore_addr.testBit 1 then 0xC else 0x3)
    else 0xF
  { q with
    mem_byteAccess := mem_byteAccess
    mem_halfwordAccess := mem_halfwordAccess
    loadstore_addr := loadstore_addr
    LOAD_halfword := LOAD_halfword
    LOAD_byte := LOAD_byte
    LOAD_sign := LOAD_sign
    LOAD_data := LOAD_data
    STORE_wmask := STORE_wmask }

/-- PC logic (`FemtoRV32_Quark::update_pc`): compute `PCplus4` and
`PCplusImm`, and, when `state == EXECUTE`, write `PC` (JALR target with bit 0
cleared, jump target, or `PC + 4`).  Note that this function is called from
the combinational process and that it reads the `jumpToPCplusImm` member as
left by the previous combinational evaluation. -/
def update_pc (q : Quark) : Quark :=
  let PCplus4 := (q.PC + 4) % 2 ^ 32
  let PCplusImm :=
    if q.isJAL then (q.PC + rng q.Jimm (ADDR_WIDTH - 1) 0) % 2 ^ 32
    else if q.isAUIPC then (q.PC + rng q.Uimm (ADDR_WIDTH - 1) 0) % 2 ^ 32
    else (q.PC + rng q.Bimm (ADDR_WIDTH - 1) 0) % 2 ^ 32
  let q := { q with PCplus4 := PCplus4, PCplusImm := PCplusImm }
  if q.state = MState.EXECUTE then
    if q.isJALR then { q with PC := rng q.aluPlus (ADDR_WIDTH - 1) 1 * 2 }
    else if q.jumpToPCplusImm then { q with PC := PCplusImm }
    else { q with PC := PCplus4 }
  else q

/-- Combinational process (`FemtoRV32_Quark::combinational_process`): the
helper evaluations in source order, then the control signals and driven
outputs, assigned in the order the C++ writes them. -/
def combinational_process (i : Inputs) (q : Quark) : Quark :=
  let q := decode_instruction i q
  let q := compute_immediates q
  let q := compute_alu q
  let q := compute_branch_predicate q
  let q := compute_memory_access i q
  let q := update_pc q
  { q with
    writeBack := !(q.isBranch || q.isStore) &&
      (decide (q.state = MState.EXECUTE) || decide (q.state = MState.WAIT_ALU_OR_MEM))
    mem_rstrb := decide (q.state = MState.FETCH_INSTR) ||
      (decide (q.state = MState.EXECUTE) && q.isLoad)
    mem_wmask := if q.state = MState.EXECUTE ∧ q.isStore = true then q.STORE_wmask else 0
    aluWr := decide (q.state = MState.EXECUTE) && q.isALU
    jumpToPCplusImm := q.isJAL || (q.isBranch && q.predicate)
    needToWait := q.isLoad || q.isStore || (q.isALU && q.funct3IsShift)
    mem_addr :=
      if q.state = MState.WAIT_INSTR ∨ q.state = MState.FETCH_INSTR ∨
          (q.state = MState.EXECUTE ∧ q.isLoad = false ∧ q.isStore = false) then
        q.PC
      else q.loadstore_addr
    mem_wdata := q.rs2
    writeBackData :=
      (if q.isSYSTEM then q.cycles else 0) |||
      (if q.isLUI then q.Uimm else 0) |||
      (if q.isALU then q.aluOut else 0) |||
      (if q.isAUIPC then q.PCplusImm else 0) |||
      (if q.isJALR || q.isJAL then q.PCplus4 else 0) |||
      (if q.isLoad then q.LOAD_data else 0) }

/-- FSM transition (`FemtoRV32_Quark::update_state`), run inside the clocked
process; it reads the `aluBusy` and `needToWait` members computed by the last
combinational evaluation. -/
def update_state (i : Inputs) (q : Quark) : Quark :=
  match q.state with
  | MState.WAIT_INSTR =>
      if i.mem_rbusy = false then { q with state := MState.EXECUTE } else q
  | MState.EXECUTE =>
      { q with state := if q.needToWait then MState.WAIT_ALU_OR_MEM else MState.FETCH_INSTR }
  | MState.WAIT_ALU_OR_MEM =>
      if q.aluBusy = false ∧ i.mem_rbusy = false ∧ i.mem_wbusy = false then
        { q with state := MState.FETCH_INSTR }
      else q
  | MState.FETCH_INSTR => { q with state := MState.WAIT_INSTR }

/-- Clocked process (`FemtoRV32_Quark::clock_process`): when `reset` reads
low, apply the reset assignments (note: only slot 0 of the register file);
otherwise advance `cycles`, run the iterative shifter (latch on
`aluWr && funct3IsShift`, else shift while `aluShamt != 0`, by 4 when the
`NRV_TWOLEVEL_SHIFTER` option `tl` is compiled in and `aluShamt.range(4,2)`
is nonzero, else by 1), write the register file, and step the FSM. -/
def clock_process (tl : Bool) (i : Inputs) (q : Quark) : Quark :=
  if i.reset = false then
    { q with
      state := MState.WAIT_ALU_OR_MEM
      PC := RESET_ADDR
      cycles := 0
      aluShamt := 0
      registerFile := q.registerFile.set 0 0 }
  else
    let q := { q with cycles := (q.cycles + 1) % 2 ^ 32 }
    let q :=
      if q.aluWr && q.funct3IsShift then
        { q with aluReg := q.aluIn1, aluShamt := rng q.aluIn2 4 0 }
      else if q.aluShamt ≠ 0 then
        if tl && decide (rng q.aluShamt 4 2 ≠ 0) then
          let sign_bit := decide (q.funct3 = 5) && q.instr.testBit 28 && q.aluReg.testBit 31
          { q with
            aluShamt := (q.aluShamt + 28) % 2 ^ 5
            aluReg :=
              if q.funct3 = 1 then q.aluReg * 2 ^ 4 % 2 ^ 32
              else sign_bit.toNat * 2 ^ 31 + sign_bit.toNat * 2 ^ 30 +
                sign_bit.toNat * 2 ^ 29 + sign_bit.toNat * 2 ^ 28 + rng q.aluReg 31 4 }
        else
          let sign_bit := decide (q.funct3 = 5) && q.instr.testBit 28 && q.aluReg.testBit 31
          { q with
            aluShamt := (q.aluShamt + 31) % 2 ^ 5
            aluReg :=
              if q.funct3 = 1 then q.aluReg * 2 ^ 1 % 2 ^ 32
              else sign_bit.toNat * 2 ^ 31 + rng q.aluReg 31 1 }
      else q
    let q :=
      if q.writeBack && q.rdId ≠ 0 then
        { q with registerFile := q.registerFile.set q.rdId q.writeBackData }
      else q
    update_state i q

/-- One full clock cycle as the model sequences it: one combinational
evaluation over the pre-edge state and inputs, then the clocked update. -/
def cycle_step (tl : Bool) (i : Inputs) (q : Quark) : Quark :=
  clock_process tl i (combinational_process i q)

/-- Post-construction value of the module: the constructor initialiser list
sets `PC`, `state`, `cycles`, `registerFile`, `aluReg`, `aluShamt`; the
remaining members are modelled as zero/false. -/
def Q0 : Quark where
  PC := 0
  instr := 0
  full_instr := 0
  state := MState.WAIT_ALU_OR_MEM
  cycles := 0
  registerFile := List.replicate 32 0
  aluReg := 0
  aluShamt := 0
  rdId := 0
  rs1Id := 0
  rs2Id := 0
  funct3 := 0
  opcode := 0
  rs1 := 0
  rs2 := 0
  Uimm := 0
  Iimm := 0
  Simm := 0
  Bimm := 0
  Jimm := 0
  isLoad := false
  isALUimm := false
  isStore := false
  isALUreg := false
  isSYSTEM := false
  isJAL := false
  isJALR := false
  isLUI := false
  isAUIPC := false
  isBranch := false
  isALU := false
  aluIn1 := 0
  aluIn2 := 0
  aluOut := 0
  aluPlus := 0
  aluMinus := 0
  LT := false
  LTU := false
  EQ := false
  aluBusy := false
  aluWr := false
  funct3IsShift := false
  predicate := false
  mem_byteAccess := false
  mem_halfwordAccess := false
  loadstore_addr := 0
  LOAD_data := 0
  LOAD_halfword := 0
  LOAD_byte := 0
  LOAD_sign := false
  STORE_wmask := 0
  writeBack := false
  jumpToPCplusImm := false
  needToWait := false
  PCplus4 := 0
  PCplusImm := 0
  writeBackData := 0
  mem_addr := 0
  mem_wdata := 0
  mem_wmask := 0
  mem_rstrb := false


/-!  Helper lemmas: projections of the combinational pipeline. -/

/-- Outside of `WAIT_INSTR` with a free read bus, the decoder changes nothing. -/
lemma decode_id (i : Inputs) (q : Quark)
    (h : ¬(q.state = MState.WAIT_INSTR ∧ i.mem_rbusy = false)) :
    decode_instruction i q = q := by
  unfold decode_instruction
  exact if_neg h

/-- The combinational process never assigns `state`. -/
lemma comb_state (i : Inputs) (q : Quark) :
    (combinational_process i q).state = q.state := by
  simp [combinational_process, decode_instruction, compute_immediates, compute_alu,
    compute_branch_predicate, compute_memory_access, update_pc, apply_ite Quark.state]

/-- The combinational process never assigns `cycles`. -/
lemma comb_cycles (i : Inputs) (q : Quark) :
    (combinational_process i q).cycles = q.cycles := by
  simp [combinational_process, decode_instruction, compute_immediates, compute_alu,
    compute_branch_predicate, compute_memory_access, update_pc, apply_ite Quark.cycles]

/-- The combinational process never assigns the register file. -/
lemma comb_registerFile (i : Inputs) (q : Quark) :
    (combinational_process i q).registerFile = q.registerFile := by
  simp [combinational_process, decode_instruction, compute_immediates, compute_alu,
    compute_branch_predicate, compute_memory_access, update_pc, apply_ite Quark.registerFile]

/-- The combinational process never assigns `aluReg`. -/
lemma comb_aluReg (i : Inputs) (q : Quark) :
    (combinational_process i q).aluReg = q.aluReg := by
  simp [combinational_process, decode_instruction, compute_immediates, compute_alu,
    compute_branch_predicate, compute_memory_access, update_pc, apply_ite Quark.aluReg]

/-- The combinational process never assigns `aluShamt`. -/
lemma comb_aluShamt (i : Inputs) (q : Quark) :
    (combinational_process i q).aluShamt = q.aluShamt := by
  simp [combinational_process, decode_instruction, compute_immediates, compute_alu,
    compute_branch_predicate, compute_memory_access, update_pc, apply_ite Quark.aluShamt]

/-- The combinational process recomputes `aluBusy` from the pre-edge `aluShamt`. -/
lemma comb_aluBusy (i : Inputs) (q : Quark) :
    (combinational_process i q).aluBusy = decide (q.aluShamt ≠ 0) := by
  simp [combinational_process, decode_instruction, compute_immediates, compute_alu,
    compute_branch_predicate, compute_memory_access, update_pc, apply_ite Quark.aluBusy,
    apply_ite Quark.aluShamt]

/-- The combinational process leaves `PC` unchanged outside of `EXECUTE`. -/
lemma comb_PC_frame (i : Inputs) (q : Quark) (h : q.state ≠ MState.EXECUTE) :
    (combinational_process i q).PC = q.PC := by
  simp only [combinational_process, compute_immediates, compute_alu,
    compute_branch_predicate, compute_memory_access, update_pc]
  simp [apply_ite Quark.PC, apply_ite Quark.state, decode_instruction, h]

/-- The combinational process leaves the latched instruction unchanged unless
the decoder captures a new word. -/
lemma comb_instr_frame (i : Inputs) (q : Quark)
    (h : ¬(q.state = MState.WAIT_INSTR ∧ i.mem_rbusy = false)) :
    (combinational_process i q).instr = q.instr ∧
    (combinational_process i q).full_instr = q.full_instr := by
  simp only [combinational_process, compute_immediates, compute_alu,
    compute_branch_predicate, compute_memory_access, update_pc, decode_id i q h]
  constructor
  · simp [apply_ite Quark.instr]
  · simp [apply_ite Quark.full_instr]

/-- Outside of a decoder capture, the combinational process recomputes
`aluWr` as `state == EXECUTE && isALU` from the latched class flag. -/
lemma comb_aluWr (i : Inputs) (q : Quark)
    (h : ¬(q.state = MState.WAIT_INSTR ∧ i.mem_rbusy = false)) :
    (combinational_process i q).aluWr = (decide (q.state = MState.EXECUTE) && q.isALU) := by
  simp only [combinational_process, compute_immediates, compute_alu,
    compute_branch_predicate, compute_memory_access, update_pc, decode_id i q h]
  simp [apply_ite Quark.state, apply_ite Quark.isALU]

/-- In `WAIT_ALU_OR_MEM` (indeed anywhere outside `EXECUTE`), the
combinational evaluation deasserts `aluWr`, so the clocked shifter cannot
latch a new shift. -/
lemma comb_aluWr_false (i : Inputs) (q : Quark) (h : q.state ≠ MState.EXECUTE)
    (h2 : q.state ≠ MState.WAIT_INSTR) :
    (combinational_process i q).aluWr = false := by
  rw [comb_aluWr i q (by simp [h2])]
  simp [h]

/-- Outside of a decoder capture, the combinational process recomputes
`needToWait` from the latched class flags and `funct3`. -/
lemma comb_needToWait (i : Inputs) (q : Quark)
    (h : ¬(q.state = MState.WAIT_INSTR ∧ i.mem_rbusy = false)) :
    (combinational_process i q).needToWait =
      (q.isLoad || q.isStore || (q.isALU && (decide (q.funct3 = 1) || decide (q.funct3 = 5)))) := by
  simp only [combinational_process, compute_immediates, compute_alu,
    compute_branch_predicate, compute_memory_access, update_pc, decode_id i q h]
  simp [apply_ite Quark.isLoad, apply_ite Quark.isStore, apply_ite Quark.isALU,
    apply_ite Quark.funct3IsShift, apply_ite Quark.funct3]

/-- The next `state` computed by `update_state`, as a function of the current
state, the busy inputs, and the `needToWait`/`aluBusy` members. -/
lemma update_state_state (i : Inputs) (q : Quark) :
    (update_state i q).state =
      match q.state with
      | MState.FETCH_INSTR => MState.WAIT_INSTR
      | MState.WAIT_INSTR =>
          if i.mem_rbusy = false then MState.EXECUTE else MState.WAIT_INSTR
      | MState.EXECUTE =>
          if q.needToWait then MState.WAIT_ALU_OR_MEM else MState.FETCH_INSTR
      | MState.WAIT_ALU_OR_MEM =>
          if q.aluBusy = false ∧ i.mem_rbusy = false ∧ i.mem_wbusy = false then
            MState.FETCH_INSTR
          else MState.WAIT_ALU_OR_MEM := by
  cases hst : q.state <;>
    simp [update_state, hst, apply_ite Quark.state]

/-- `update_state` assigns only `state`: the listed fields pass through. -/
lemma update_state_frame (i : Inputs) (q : Quark) :
    (update_state i q).PC = q.PC ∧
    (update_state i q).cycles = q.cycles ∧
    (update_state i q).registerFile = q.registerFile ∧
    (update_state i q).aluReg = q.aluReg ∧
    (update_state i q).aluShamt = q.aluShamt := by
  cases hst : q.state <;>
    simp [update_state, hst, apply_ite Quark.PC, apply_ite Quark.cycles,
      apply_ite Quark.registerFile, apply_ite Quark.aluReg, apply_ite Quark.aluShamt]

/-- With `reset` sampled high the clocked process runs the FSM transition on
the members computed by the last combinational evaluation. -/
lemma clock_state (tl : Bool) (i : Inputs) (q : Quark) (hr : i.reset = true) :
    (clock_process tl i q).state =
      match q.state with
      | MState.FETCH_INSTR => MState.WAIT_INSTR
      | MState.WAIT_INSTR =>
          if i.mem_rbusy = false then MState.EXECUTE else MState.WAIT_INSTR
      | MState.EXECUTE =>
          if q.needToWait then MState.WAIT_ALU_OR_MEM else MState.FETCH_INSTR
      | MState.WAIT_ALU_OR_MEM =>
          if q.aluBusy = false ∧ i.mem_rbusy = false ∧ i.mem_wbusy = false then
            MState.FETCH_INSTR
          else MState.WAIT_ALU_OR_MEM := by
  simp only [clock_process, hr]
  simp only [Bool.true_eq_false, if_false, if_neg]
  rw [update_state_state]
  simp [apply_ite Quark.state, apply_ite Quark.needToWait, apply_ite Quark.aluBusy]

/-- With `reset` high the clocked process never assigns `PC`. -/
lemma clock_PC (tl : Bool) (i : Inputs) (q : Quark) (hr : i.reset = true) :
    (clock_process tl i q).PC = q.PC := by
  simp only [clock_process, hr]
  simp [apply_ite Quark.PC, update_state_frame, (update_state_frame i _).1]

/-- With `reset` high the register file is written exactly when
`writeBack && rdId != 0`, with `writeBackData` at index `rdId`. -/
lemma clock_registerFile (tl : Bool) (i : Inputs) (q : Quark) (hr : i.reset = true) :
    (clock_process tl i q).registerFile =
      if q.writeBack && q.rdId ≠ 0 then q.registerFile.set q.rdId q.writeBackData
      else q.registerFile := by
  simp only [clock_process, hr]
  simp [apply_ite Quark.registerFile, apply_ite Quark.writeBack, apply_ite Quark.rdId,
    apply_ite Quark.writeBackData, (update_state_frame i _).2.2.1]

/-- With `reset` high and no shift latch pending, one clocked step maps
`aluShamt` to `0 ↦ 0` and otherwise decrements it by 4 (two-level mode with
`aluShamt.range(4,2)` nonzero) or by 1, in 5-bit arithmetic. -/
lemma clock_aluShamt (tl : Bool) (i : Inputs) (q : Quark) (hr : i.reset = true)
    (hw : (q.aluWr && q.funct3IsShift) = false) :
    (clock_process tl i q).aluShamt =
      if q.aluShamt = 0 then q.aluShamt
      else if tl && decide (rng q.aluShamt 4 2 ≠ 0) then (q.aluShamt + 28) % 2 ^ 5
      else (q.aluShamt + 31) % 2 ^ 5 := by
  simp only [clock_process, hr]
  simp only [Bool.true_eq_false, if_false, hw]
  split_ifs <;>
    simp_all [apply_ite Quark.aluShamt, (update_state_frame i _).2.2.2.2]

/-- With `reset` high the clocked process preserves `aluWr` and
`funct3IsShift` (they are written only by the combinational evaluation). -/
lemma clock_keeps_aluWr (tl : Bool) (i : Inputs) (q : Quark) :
    (clock_process tl i q).aluWr = q.aluWr ∧
    (clock_process tl i q).funct3IsShift = q.funct3IsShift := by
  have hus : ∀ r : Quark, (update_state i r).aluWr = r.aluWr ∧
      (update_state i r).funct3IsShift = r.funct3IsShift := by
    intro r
    cases hst : r.state <;>
      simp [update_state, hst, apply_ite Quark.aluWr, apply_ite Quark.funct3IsShift]
  simp only [clock_process]
  split_ifs <;>
    simp_all [apply_ite Quark.aluWr, apply_ite Quark.funct3IsShift]

/-- Outside of a decoder capture, the combinational process keeps `rdId`. -/
lemma comb_rdId (i : Inputs) (q : Quark)
    (h : ¬(q.state = MState.WAIT_INSTR ∧ i.mem_rbusy = false)) :
    (combinational_process i q).rdId = q.rdId := by
  simp only [combinational_process, compute_immediates, compute_alu,
    compute_branch_predicate, compute_memory_access, update_pc, decode_id i q h]
  simp [apply_ite Quark.rdId]

/-- Outside of a decoder capture, the recomputed `writeBack` control in terms
of the latched class flags and the current state. -/
lemma comb_writeBack (i : Inputs) (q : Quark)
    (h : ¬(q.state = MState.WAIT_INSTR ∧ i.mem_rbusy = false)) :
    (combinational_process i q).writeBack =
      (!(q.isBranch || q.isStore) &&
        (decide (q.state = MState.EXECUTE) || decide (q.state = MState.WAIT_ALU_OR_MEM))) := by
  simp only [combinational_process, compute_immediates, compute_alu,
    compute_branch_predicate, compute_memory_access, update_pc, decode_id i q h]
  simp [apply_ite Quark.isBranch, apply_ite Quark.isStore, apply_ite Quark.state]

/-- When no writeback-source class flag is latched, the combinational
`writeBackData` mux produces zero. -/
lemma comb_writeBackData_zero (i : Inputs) (q : Quark)
    (h : ¬(q.state = MState.WAIT_INSTR ∧ i.mem_rbusy = false))
    (hSYSTEM : q.isSYSTEM = false) (hLUI : q.isLUI = false) (hALU : q.isALU = false)
    (hAUIPC : q.isAUIPC = false) (hJALR : q.isJALR = false) (hJAL : q.isJAL = false)
    (hLoad : q.isLoad = false) :
    (combinational_process i q).writeBackData = 0 := by
  simp only [combinational_process, compute_immediates, compute_alu,
    compute_branch_predicate, compute_memory_access, update_pc, decode_id i q h]
  simp [apply_ite Quark.isSYSTEM, apply_ite Quark.isLUI, apply_ite Quark.isALU,
    apply_ite Quark.isAUIPC, apply_ite Quark.isJALR, apply_ite Quark.isJAL,
    apply_ite Quark.isLoad, hSYSTEM, hLUI, hALU, hAUIPC, hJALR, hJAL, hLoad]

/-- In `EXECUTE` with neither a JALR nor a pending jump intent, the
combinational evaluation writes `PC ← PC + 4`. -/
lemma comb_PC_execute (i : Inputs) (q : Quark) (hst : q.state = MState.EXECUTE)
    (hJALR : q.isJALR = false) (hjump : q.jumpToPCplusImm = false) :
    (combinational_process i q).PC = (q.PC + 4) % 2 ^ 32 := by
  simp only [combinational_process, compute_immediates, compute_alu,
    compute_branch_predicate, compute_memory_access, update_pc,
    decode_id i q (by simp [hst])]
  simp [apply_ite Quark.PC, apply_ite Quark.state, apply_ite Quark.isJALR,
    apply_ite Quark.jumpToPCplusImm, apply_ite Quark.isJAL, apply_ite Quark.isAUIPC,
    hst, hJALR, hjump]

/-!  Claim theorems. -/

/-- C1.  On the captured word `I = 0x80000000` (bit 31 set), the derived
S/B/J immediates are the zero-extended payloads `0x800`, `0x1000`,
`0x100000`: the bits above each payload width are 0, not 1, because the
SystemC translation converts the single sign bit to a wide zero-padded
number instead of replicating it (`sc_uint<21>(instr[29])` and friends in
`compute_immediates`).  This contradicts the claimed full sign extension. -/
theorem c1_sbj_immediates_not_sign_extended :
    (compute_immediates (decode_instruction ⟨true, 0x80000000, false, false⟩
        { Q0 with state := MState.WAIT_INSTR })).full_instr.testBit 31 = true ∧
    (compute_immediates (decode_instruction ⟨true, 0x80000000, false, false⟩
        { Q0 with state := MState.WAIT_INSTR })).Simm = 0x00000800 ∧
    (compute_immediates (decode_instruction ⟨true, 0x80000000, false, false⟩
        { Q0 with state := MState.WAIT_INSTR })).Bimm = 0x00001000 ∧
    (compute_immediates (decode_instruction ⟨true, 0x80000000, false, false⟩
        { Q0 with state := MState.WAIT_INSTR })).Jimm = 0x00100000 ∧
    (compute_immediates (decode_instruction ⟨true, 0x80000000, false, false⟩
        { Q0 with state := MState.WAIT_INSTR })).Simm.testBit 12 = false ∧
    (compute_immediates (decode_instruction ⟨true, 0x80000000, false, false⟩
        { Q0 with state := MState.WAIT_INSTR })).Bimm.testBit 13 = false ∧
    (compute_immediates (decode_instruction ⟨true, 0x80000000, false, false⟩
        { Q0 with state := MState.WAIT_INSTR })).Jimm.testBit 21 = false := by
  decide

/-- C2.  Load-path divergences at concrete inputs.  First, `lb x3,0(x2)`
(word `0x00010183`, `funct3 = 0`, effective address 0) on memory word
`0x00000080` yields `LOAD_data = 0x180`: the selected byte `0x80` has its
sign bit converted to the single bit 8 instead of being replicated over
bits 31:8, so the result is not `0xFFFFFF80`.  Second, `lb x3,0(x1)` (word
`0x00008183`) is not even classified as a byte access — the size flags test
`instr.range(13,12)`, which are bits 15:14 of the instruction word (here
`rs1Id` bit 0 and `funct3` bit 2) — so the load returns the whole word. -/
theorem c2_load_extension_bug :
    ((combinational_process ⟨true, 0x00000080, false, false⟩
        (clock_process false ⟨true, 0x00010183, false, false⟩
          (combinational_process ⟨true, 0x00010183, false, false⟩
            { Q0 with state := MState.WAIT_INSTR }))).state = MState.EXECUTE ∧
      (combinational_process ⟨true, 0x00000080, false, false⟩
        (clock_process false ⟨true, 0x00010183, false, false⟩
          (combinational_process ⟨true, 0x00010183, false, false⟩
            { Q0 with state := MState.WAIT_INSTR }))).funct3 = 0 ∧
      (combinational_process ⟨true, 0x00000080, false, false⟩
        (clock_process false ⟨true, 0x00010183, false, false⟩
          (combinational_process ⟨true, 0x00010183, false, false⟩
            { Q0 with state := MState.WAIT_INSTR }))).loadstore_addr = 0 ∧
      (combinational_process ⟨true, 0x00000080, false, false⟩
        (clock_process false ⟨true, 0x00010183, false, false⟩
          (combinational_process ⟨true, 0x00010183, false, false⟩
            { Q0 with state := MState.WAIT_INSTR }))).LOAD_data = 0x00000180) ∧
    ((combinational_process ⟨true, 0xDEAD0080, false, false⟩
        (clock_process false ⟨true, 0x00008183, false, false⟩
          (combinational_process ⟨true, 0x00008183, false, false⟩
            { Q0 with state := MState.WAIT_INSTR }))).funct3 = 0 ∧
      (combinational_process ⟨true, 0xDEAD0080, false, false⟩
        (clock_process false ⟨true, 0x00008183, false, false⟩
          (combinational_process ⟨true, 0x00008183, false, false⟩
            { Q0 with state := MState.WAIT_INSTR }))).mem_byteAccess = false ∧
      (combinational_process ⟨true, 0xDEAD0080, false, false⟩
        (clock_process false ⟨true, 0x00008183, false, false⟩
          (combinational_process ⟨true, 0x00008183, false, false⟩
            { Q0 with state := MState.WAIT_INSTR }))).LOAD_data = 0xDEAD0080) := by
  decide

/-- C3 (counterexample).  In `EXECUTE` the combinational evaluation itself
writes the architectural `PC`: one call moves `PC` from 100 to 104 with no
clock edge involved, refuting the claim that the combinational evaluation
writes none of the architectural fields. -/
theorem c3_counterexample :
    (combinational_process ⟨true, 0, false, false⟩
        { Q0 with state := MState.EXECUTE, PC := 100 }).PC = 104 := by
  decide

/-- C3 (amended).  The combinational evaluation never writes `state`,
`cycles`, the register file, `aluReg` or `aluShamt`; it leaves `PC`
unchanged except when `state = EXECUTE` (where `update_pc` assigns it), and
it leaves the latched instruction unchanged except when a new word is
captured in `WAIT_INSTR` with the read bus free. -/
theorem c3_combinational_frame (i : Inputs) (q : Quark) :
    (combinational_process i q).state = q.state ∧
    (combinational_process i q).cycles = q.cycles ∧
    (combinational_process i q).registerFile = q.registerFile ∧
    (combinational_process i q).aluReg = q.aluReg ∧
    (combinational_process i q).aluShamt = q.aluShamt ∧
    (q.state = MState.EXECUTE ∨ (combinational_process i q).PC = q.PC) ∧
    ((q.state = MState.WAIT_INSTR ∧ i.mem_rbusy = false) ∨
      ((combinational_process i q).instr = q.instr ∧
        (combinational_process i q).full_instr = q.full_instr)) := by
  refine ⟨comb_state i q, comb_cycles i q, comb_registerFile i q, comb_aluReg i q,
    comb_aluShamt i q, ?_, ?_⟩
  · by_cases h : q.state = MState.EXECUTE
    · exact Or.inl h
    · exact Or.inr (comb_PC_frame i q h)
  · by_cases h : q.state = MState.WAIT_INSTR ∧ i.mem_rbusy = false
    · exact Or.inl h
    · exact Or.inr (comb_instr_frame i q h)

/-- C4 (counterexample).  The word `0x00000287` has `I[6:2] = 00001`, which
matches no class in the decode table (all ten latched class flags are
false), and names `rd = x5`.  Executing it from `WAIT_INSTR` with `x5 = 7`
does advance `PC` by 4, but it also clears `x5` to 0: `writeBack` is
asserted in `EXECUTE` with a zero `writeBackData` mux, so the instruction is
not a register-preserving NOP. -/
theorem c4_counterexample :
    rng 0x00000287 6 2 = 0x01 ∧
    ((combinational_process ⟨true, 0x00000287, false, false⟩
        { Q0 with state := MState.WAIT_INSTR,
                  registerFile := (List.replicate 32 0).set 5 7 }).isLoad = false ∧
      (combinational_process ⟨true, 0x00000287, false, false⟩
        { Q0 with state := MState.WAIT_INSTR,
                  registerFile := (List.replicate 32 0).set 5 7 }).isALUimm = false ∧
      (combinational_process ⟨true, 0x00000287, false, false⟩
        { Q0 with state := MState.WAIT_INSTR,
                  registerFile := (List.replicate 32 0).set 5 7 }).isStore = false ∧
      (combinational_process ⟨true, 0x00000287, false, false⟩
        { Q0 with state := MState.WAIT_INSTR,
                  registerFile := (List.replicate 32 0).set 5 7 }).isALUreg = false ∧
      (combinational_process ⟨true, 0x00000287, false, false⟩
        { Q0 with state := MState.WAIT_INSTR,
                  registerFile := (List.replicate 32 0).set 5 7 }).isSYSTEM = false ∧
      (combinational_process ⟨true, 0x00000287, false, false⟩
        { Q0 with state := MState.WAIT_INSTR,
                  registerFile := (List.replicate 32 0).set 5 7 }).isJAL = false ∧
      (combinational_process ⟨true, 0x00000287, false, false⟩
        { Q0 with state := MState.WAIT_INSTR,
                  registerFile := (List.replicate 32 0).set 5 7 }).isJALR = false ∧
      (combinational_process ⟨true, 0x00000287, false, false⟩
        { Q0 with state := MState.WAIT_INSTR,
                  registerFile := (List.replicate 32 0).set 5 7 }).isLUI = false ∧
      (combinational_process ⟨true, 0x00000287, false, false⟩
        { Q0 with state := MState.WAIT_INSTR,
                  registerFile := (List.replicate 32 0).set 5 7 }).isAUIPC = false ∧
      (combinational_process ⟨true, 0x00000287, false, false⟩
        { Q0 with state := MState.WAIT_INSTR,
                  registerFile := (List.replicate 32 0).set 5 7 }).isBranch = false) ∧
    (cycle_step false ⟨true, 0x00000287, false, false⟩
      (cycle_step false ⟨true, 0x00000287, false, false⟩
        { Q0 with state := MState.WAIT_INSTR,
                  registerFile := (List.replicate 32 0).set 5 7 })).PC = 4 ∧
    ({ Q0 with state := MState.WAIT_INSTR,
               registerFile := (List.replicate 32 0).set 5 7 } : Quark).registerFile.getD 5 0 = 7 ∧
    (cycle_step false ⟨true, 0x00000287, false, false⟩
      (cycle_step false ⟨true, 0x00000287, false, false⟩
        { Q0 with state := MState.WAIT_INSTR,
                  registerFile := (List.replicate 32 0).set 5 7 })).registerFile.getD 5 0 = 0 := by
  decide

/-- C4 (amended).  An instruction whose latched class flags are all false
executes as follows in `EXECUTE` (with no stale jump intent): `PC` advances
by exactly 4, the FSM returns to `FETCH_INSTR`, registers other than
`x[rdId]` keep their values, and `x[rdId]` is overwritten with zero when
`rdId ≠ 0` (because `writeBack` is asserted with a zero mux result). -/
theorem c4_illegal_nop_writes_zero_rd (tl : Bool) (i : Inputs) (q : Quark)
    (hr : i.reset = true) (hst : q.state = MState.EXECUTE)
    (hLoad : q.isLoad = false) (hALUimm : q.isALUimm = false) (hStore : q.isStore = false)
    (hALUreg : q.isALUreg = false) (hSYSTEM : q.isSYSTEM = false) (hJAL : q.isJAL = false)
    (hJALR : q.isJALR = false) (hLUI : q.isLUI = false) (hAUIPC : q.isAUIPC = false)
    (hBranch : q.isBranch = false) (hALU : q.isALU = false)
    (hjump : q.jumpToPCplusImm = false)
    (hlen : q.registerFile.length = 32) (hrd : q.rdId < 32) :
    (cycle_step tl i q).PC = (q.PC + 4) % 2 ^ 32 ∧
    (cycle_step tl i q).state = MState.FETCH_INSTR ∧
    (∀ j, j ≠ q.rdId → (cycle_step tl i q).registerFile.getD j 0 = q.registerFile.getD j 0) ∧
    (q.rdId ≠ 0 → (cycle_step tl i q).registerFile.getD q.rdId 0 = 0) := by
  have hnd : ¬(q.state = MState.WAIT_INSTR ∧ i.mem_rbusy = false) := by simp [hst]
  simp only [cycle_step]
  have hcs : (combinational_process i q).state = MState.EXECUTE := by
    rw [comb_state]; exact hst
  have hcw : (combinational_process i q).writeBack = true := by
    rw [comb_writeBack i q hnd]; simp [hst, hBranch, hStore]
  have hcd : (combinational_process i q).writeBackData = 0 :=
    comb_writeBackData_zero i q hnd hSYSTEM hLUI hALU hAUIPC hJALR hJAL hLoad
  have hcr : (combinational_process i q).rdId = q.rdId := comb_rdId i q hnd
  have hcn : (combinational_process i q).needToWait = false := by
    rw [comb_needToWait i q hnd]; simp [hLoad, hStore, hALU]
  have hcp : (combinational_process i q).PC = (q.PC + 4) % 2 ^ 32 :=
    comb_PC_execute i q hst hJALR hjump
  have hcf : (combinational_process i q).registerFile = q.registerFile :=
    comb_registerFile i q
  refine ⟨?_, ?_, ?_, ?_⟩
  · rw [clock_PC tl i _ hr, hcp]
  · rw [clock_state tl i _ hr, hcs, hcn]
    simp
  · intro j hj
    rw [clock_registerFile tl i _ hr, hcw, hcr, hcd, hcf]
    by_cases h0 : q.rdId = 0
    · simp [h0]
    · rw [if_pos (by simp [h0]), List.getD_eq_getD_get?,
        List.get?_set_ne 0 _ (fun hc => hj hc.symm), ← List.getD_eq_getD_get?]
  · intro h0
    rw [clock_registerFile tl i _ hr, hcw, hcr, hcd, hcf,
      if_pos (by simp [h0]), List.getD_eq_getD_get?,
      List.get?_set_eq_of_lt 0 (by rw [hlen]; exact hrd)]
    rfl

/-- C4 (witness).  The amended theorem applied to the concrete illegal word
`0x00000287` latched into the execute stage with `x5 = 7`. -/
theorem c4_witness :
    (cycle_step false ⟨true, 0, false, false⟩
        { Q0 with state := MState.EXECUTE, rdId := 5,
                  registerFile := (List.replicate 32 0).set 5 7 }).PC = 4 % 2 ^ 32 ∧
    (cycle_step false ⟨true, 0, false, false⟩
        { Q0 with state := MState.EXECUTE, rdId := 5,
                  registerFile := (List.replicate 32 0).set 5 7 }).state = MState.FETCH_INSTR ∧
    (∀ j, j ≠ 5 →
      (cycle_step false ⟨true, 0, false, false⟩
        { Q0 with state := MState.EXECUTE, rdId := 5,
                  registerFile := (List.replicate 32 0).set 5 7 }).registerFile.getD j 0 =
      (((List.replicate 32 0).set 5 7 : List Nat)).getD j 0) ∧
    ((5 : Nat) ≠ 0 →
      (cycle_step false ⟨true, 0, false, false⟩
        { Q0 with state := MState.EXECUTE, rdId := 5,
                  registerFile := (List.replicate 32 0).set 5 7 }).registerFile.getD 5 0 = 0) :=
  c4_illegal_nop_writes_zero_rd false ⟨true, 0, false, false⟩
    { Q0 with state := MState.EXECUTE, rdId := 5,
              registerFile := (List.replicate 32 0).set 5 7 }
    rfl rfl rfl rfl rfl rfl rfl rfl rfl rfl rfl rfl rfl rfl (by decide) (by decide)

/-- C5.  One clock edge (combinational evaluation, then clocked update, with
reset high) steps the FSM exactly per the four-state relation:
`WAIT_ALU_OR_MEM → FETCH_INSTR` when the pre-edge `aluShamt` is zero and
both bus-busy inputs are low, else stay; `FETCH_INSTR → WAIT_INSTR`;
`WAIT_INSTR → EXECUTE` when `!mem_rbusy`, else stay; and
`EXECUTE → WAIT_ALU_OR_MEM` iff
`needToWait = isLoad || isStore || (isALU && funct3IsShift)`, else
`→ FETCH_INSTR`. -/
theorem c5_fsm_transitions (tl : Bool) (i : Inputs) (q : Quark) (hr : i.reset = true) :
    (clock_process tl i (combinational_process i q)).state =
      match q.state with
      | MState.FETCH_INSTR => MState.WAIT_INSTR
      | MState.WAIT_INSTR =>
          if i.mem_rbusy = false then MState.EXECUTE else MState.WAIT_INSTR
      | MState.EXECUTE =>
          if q.isLoad || q.isStore ||
              (q.isALU && (decide (q.funct3 = 1) || decide (q.funct3 = 5))) then
            MState.WAIT_ALU_OR_MEM
          else MState.FETCH_INSTR
      | MState.WAIT_ALU_OR_MEM =>
          if q.aluShamt = 0 ∧ i.mem_rbusy = false ∧ i.mem_wbusy = false then
            MState.FETCH_INSTR
          else MState.WAIT_ALU_OR_MEM := by
  rw [clock_state tl i _ hr, comb_state]
  cases hst : q.state
  · rfl
  · rfl
  · rw [comb_needToWait i q (by simp [hst])]
  · rw [comb_aluBusy i q]
    by_cases h0 : q.aluShamt = 0 <;> simp [h0]

/-- C5 (witness).  The transition theorem at a concrete load in `EXECUTE`:
the FSM moves to `WAIT_ALU_OR_MEM`. -/
theorem c5_witness :
    (clock_process false ⟨true, 0, false, false⟩
      (combinational_process ⟨true, 0, false, false⟩
        { Q0 with state := MState.EXECUTE, isLoad := true })).state =
      MState.WAIT_ALU_OR_MEM := by
  have h := c5_fsm_transitions false ⟨true, 0, false, false⟩
    { Q0 with state := MState.EXECUTE, isLoad := true } rfl
  simpa using h

/-- Concatenation arithmetic: splitting bits 31..12 into bit 31 and
bits 30..12 matches selecting bits 31..12 at once. -/
lemma uimm_concat (I : Nat) :
    bitv I 31 * 2 ^ 31 + rng I 30 12 * 2 ^ 12 = rng I 31 12 * 2 ^ 12 := by
  simp only [rng, bitv]
  norm_num
  omega

/-- C6 (counterexample).  The AUIPC word `0x00001017` (value below
`0x10000`) is routed through the truncation-workaround branch of
`compute_immediates`, which forces `Uimm = 0` although
`I[31:12] ∥ 12'h000 = 0x1000`. -/
theorem c6_counterexample :
    (decode_instruction ⟨true, 0x00001017, false, false⟩
        { Q0 with state := MState.WAIT_INSTR }).isAUIPC = true ∧
    (0x00001017 : Nat) < 0x10000 ∧
    rng 0x00001017 31 12 * 2 ^ 12 = 0x1000 ∧
    (compute_immediates (decode_instruction ⟨true, 0x00001017, false, false⟩
        { Q0 with state := MState.WAIT_INSTR })).Uimm = 0 := by
  decide

/-- Projection of the `Uimm` mux of `compute_immediates`. -/
lemma compute_immediates_Uimm (q : Quark) :
    (compute_immediates q).Uimm =
      if (q.full_instr % 0x80 = 0x17 ∨ q.full_instr % 0x80 = 0x37) ∧
          q.full_instr < 0x10000 then
        (if q.full_instr % 0x80 = 0x17 then 0
         else q.full_instr / 2 ^ 12 % 0x10 * 2 ^ 12)
      else
        bitv q.full_instr 31 * 2 ^ 31 + rng q.full_instr 30 12 * 2 ^ 12 := rfl

/-- C6 (amended).  For every captured word: `Uimm = I[31:12] ∥ 12'h000`
except when the word has the AUIPC opcode and value below `0x10000`, where
the truncation workaround forces `Uimm = 0`.  (For LUI words below `0x10000`
the workaround computes the same value as the plain formula.) -/
theorem c6_uimm_truncation_workaround (i : Inputs) (q : Quark) (I : Nat)
    (hst : q.state = MState.WAIT_INSTR) (hrb : i.mem_rbusy = false)
    (hI : i.mem_rdata = I) (hlt : I < 2 ^ 32) :
    (compute_immediates (decode_instruction i q)).Uimm =
      if I % 0x80 = 0x17 ∧ I < 0x10000 then 0 else rng I 31 12 * 2 ^ 12 := by
  have hfi : (decode_instruction i q).full_instr = I := by
    simp only [decode_instruction, hst, hrb, hI, and_self, if_true]
    omega
  rw [compute_immediates_Uimm, hfi]
  split_ifs with h1 h2 h3 h4 h5
  · rfl
  · exact absurd ⟨h2, h1.2⟩ h3
  · exact absurd h4.1 h2
  · have hsmall := h1.2
    simp only [rng]
    norm_num
    omega
  · exact absurd ⟨Or.inl h5.1, h5.2⟩ h1
  · exact uimm_concat I

/-- C6 (witness).  The amended statement at the LUI word `0x000030B7`
(below `0x10000`): the workaround and the plain formula agree on `0x3000`. -/
theorem c6_witness :
    (compute_immediates (decode_instruction ⟨true, 0x000030B7, false, false⟩
        { Q0 with state := MState.WAIT_INSTR })).Uimm =
      if (0x000030B7 : Nat) % 0x80 = 0x17 ∧ (0x000030B7 : Nat) < 0x10000 then 0
      else rng 0x000030B7 31 12 * 2 ^ 12 :=
  c6_uimm_truncation_workaround ⟨true, 0x000030B7, false, false⟩
    { Q0 with state := MState.WAIT_INSTR } 0x000030B7 rfl rfl rfl (by norm_num)

/-- C7 (counterexample).  The word `0x0000000F` (a FENCE encoding) has
`I[6:2] = 00011`, which is outside the decode table, yet the decoder asserts
`isJAL` for it, because `isJAL` is wired to instruction bit 3 rather than to
a full comparison of `I[6:2]` with `11011`. -/
theorem c7_counterexample :
    rng 0x0000000F 6 2 = 0x03 ∧
    (decode_instruction ⟨true, 0x0000000F, false, false⟩
        { Q0 with state := MState.WAIT_INSTR }).isJAL = true := by
  decide

/-- C7 (amended).  For every captured word, `isJAL` is asserted exactly when
instruction bit 3 is set (which agrees with `I[6:2] = 11011` on the table's
opcodes but also fires on out-of-table patterns such as FENCE); the ten
class flags are nevertheless pairwise mutually exclusive — at most one is
set — and `isALU = isALUimm || isALUreg`. -/
theorem c7_decode_classes (i : Inputs) (q : Quark) (I : Nat)
    (hst : q.state = MState.WAIT_INSTR) (hrb : i.mem_rbusy = false)
    (hI : i.mem_rdata = I) (hlt : I < 2 ^ 32) :
    (decode_instruction i q).isJAL = I.testBit 3 ∧
    (decode_instruction i q).isALU =
      ((decode_instruction i q).isALUimm || (decode_instruction i q).isALUreg) ∧
    List.count true
      [(decode_instruction i q).isLoad, (decode_instruction i q).isALUimm,
       (decode_instruction i q).isAUIPC, (decode_instruction i q).isStore,
       (decode_instruction i q).isALUreg, (decode_instruction i q).isLUI,
       (decode_instruction i q).isBranch, (decode_instruction i q).isJALR,
       (decode_instruction i q).isJAL, (decode_instruction i q).isSYSTEM] ≤ 1 := by
  have hm : I % 2 ^ 32 = I := Nat.mod_eq_of_lt hlt
  simp only [decode_instruction, hst, hrb, hI, and_self, if_true, hm]
  refine ⟨trivial, trivial, ?_⟩
  have h8 : I / 8 % 2 = I / 4 % 32 / 2 % 2 := by omega
  have htb : I.testBit 3 = decide (I / 4 % 32 / 2 % 2 = 1) := by
    rw [Nat.testBit_to_div_mod]
    norm_num
    omega
  have hc : rng I 6 2 = I / 4 % 32 := by
    simp only [rng]
    norm_num
  rw [hc, htb]
  have hlt32 : I / 4 % 32 < 32 := Nat.mod_lt _ (by norm_num)
  set c := I / 4 % 32 with hcdef
  clear_value c
  interval_cases c <;> decide

/-- C7 (witness).  The amended decode theorem at the JAL word `0x0000006F`. -/
theorem c7_witness :
    (decode_instruction ⟨true, 0x0000006F, false, false⟩
        { Q0 with state := MState.WAIT_INSTR }).isJAL = Nat.testBit 0x0000006F 3 ∧
    (decode_instruction ⟨true, 0x0000006F, false, false⟩
        { Q0 with state := MState.WAIT_INSTR }).isALU =
      ((decode_instruction ⟨true, 0x0000006F, false, false⟩
          { Q0 with state := MState.WAIT_INSTR }).isALUimm ||
        (decode_instruction ⟨true, 0x0000006F, false, false⟩
          { Q0 with state := MState.WAIT_INSTR }).isALUreg) ∧
    List.count true
      [(decode_instruction ⟨true, 0x0000006F, false, false⟩
          { Q0 with state := MState.WAIT_INSTR }).isLoad,
       (decode_instruction ⟨true, 0x0000006F, false, false⟩
          { Q0 with state := MState.WAIT_INSTR }).isALUimm,
       (decode_instruction ⟨true, 0x0000006F, false, false⟩
          { Q0 with state := MState.WAIT_INSTR }).isAUIPC,
       (decode_instruction ⟨true, 0x0000006F, false, false⟩
          { Q0 with state := MState.WAIT_INSTR }).isStore,
       (decode_instruction ⟨true, 0x0000006F, false, false⟩
          { Q0 with state := MState.WAIT_INSTR }).isALUreg,
       (decode_instruction ⟨true, 0x0000006F, false, false⟩
          { Q0 with state := MState.WAIT_INSTR }).isLUI,
       (decode_instruction ⟨true, 0x0000006F, false, false⟩
          { Q0 with state := MState.WAIT_INSTR }).isBranch,
       (decode_instruction ⟨true, 0x0000006F, false, false⟩
          { Q0 with state := MState.WAIT_INSTR }).isJALR,
       (decode_instruction ⟨true, 0x0000006F, false, false⟩
          { Q0 with state := MState.WAIT_INSTR }).isJAL,
       (decode_instruction ⟨true, 0x0000006F, false, false⟩
          { Q0 with state := MState.WAIT_INSTR }).isSYSTEM] ≤ 1 :=
  c7_decode_classes ⟨true, 0x0000006F, false, false⟩
    { Q0 with state := MState.WAIT_INSTR } 0x0000006F rfl rfl rfl (by norm_num)

/-- C8 (counterexample).  The SYSTEM word `0x00102573` names CSR address
`0x001` (not `0xC00`), yet after its execute cycle the destination register
`x10` holds the cycle counter value 6, not zero: the `writeBackData` mux
selects `cycles` for every SYSTEM instruction without examining the CSR
address. -/
theorem c8_counterexample :
    rng 0x00102573 31 20 = 0x001 ∧
    (combinational_process ⟨true, 0x00102573, false, false⟩
        { Q0 with state := MState.WAIT_INSTR, cycles := 5 }).isSYSTEM = true ∧
    (cycle_step false ⟨true, 0x00102573, false, false⟩
      (cycle_step false ⟨true, 0x00102573, false, false⟩
        { Q0 with state := MState.WAIT_INSTR, cycles := 5 })).registerFile.getD 10 0 = 6 := by
  decide

/-- C8 (amended).  With a SYSTEM instruction latched (and no other
writeback-source class flag set), the combinational `writeBackData` equals
the low 32 bits of `cycles` irrespective of the CSR address carried in the
instruction word; there is no CSR write path, so CSR writes change no
state. -/
theorem c8_system_writeback (i : Inputs) (q : Quark)
    (hst : q.state = MState.EXECUTE) (hS : q.isSYSTEM = true)
    (hLUI : q.isLUI = false) (hALU : q.isALU = false) (hAUIPC : q.isAUIPC = false)
    (hJALR : q.isJALR = false) (hJAL : q.isJAL = false) (hLoad : q.isLoad = false) :
    (combinational_process i q).writeBackData = q.cycles := by
  simp only [combinational_process, compute_immediates, compute_alu,
    compute_branch_predicate, compute_memory_access, update_pc,
    decode_id i q (by simp [hst])]
  simp [apply_ite Quark.isSYSTEM, apply_ite Quark.isLUI, apply_ite Quark.isALU,
    apply_ite Quark.isAUIPC, apply_ite Quark.isJALR, apply_ite Quark.isJAL,
    apply_ite Quark.isLoad, apply_ite Quark.cycles,
    hS, hLUI, hALU, hAUIPC, hJALR, hJAL, hLoad]

/-- C8 (witness).  The amended theorem at a concrete SYSTEM execute state
with `cycles = 42`. -/
theorem c8_witness :
    (combinational_process ⟨true, 0, false, false⟩
        { Q0 with state := MState.EXECUTE, isSYSTEM := true, cycles := 42 }).writeBackData = 42 :=
  c8_system_writeback ⟨true, 0, false, false⟩
    { Q0 with state := MState.EXECUTE, isSYSTEM := true, cycles := 42 }
    rfl rfl rfl rfl rfl rfl rfl rfl

/-- C9 (counterexample).  Sampling the `reset` input high does not produce
the reset configuration (the cycle counter advances from 7 to 8 and the FSM
leaves `EXECUTE` for `FETCH_INSTR` instead of `WAIT_ALU_OR_MEM`); sampling
it low does apply the reset assignments, but leaves register slot 5 at 7 —
only slot 0 is zeroed, not all 32 slots. -/
theorem c9_counterexample :
    (clock_process false ⟨true, 0, false, false⟩
        { Q0 with state := MState.EXECUTE, cycles := 7,
                  registerFile := (List.replicate 32 0).set 5 7 }).cycles = 8 ∧
    (clock_process false ⟨true, 0, false, false⟩
        { Q0 with state := MState.EXECUTE, cycles := 7,
                  registerFile := (List.replicate 32 0).set 5 7 }).state = MState.FETCH_INSTR ∧
    (clock_process false ⟨false, 0, false, false⟩
        { Q0 with state := MState.EXECUTE, cycles := 7,
                  registerFile := (List.replicate 32 0).set 5 7 }).state = MState.WAIT_ALU_OR_MEM ∧
    (clock_process false ⟨false, 0, false, false⟩
        { Q0 with state := MState.EXECUTE, cycles := 7,
                  registerFile := (List.replicate 32 0).set 5 7 }).registerFile.getD 5 0 = 7 := by
  decide

/-- C9 (amended).  When the `reset` input samples LOW on a clock edge (the
reset is active-low in this model), the clocked process applies
`state = WAIT_ALU_OR_MEM`, `PC = RESET_ADDR`, `cycles = 0`, `aluShamt = 0`,
zeroes register slot 0, and leaves the other 31 register slots (and
`aluReg`) unchanged. -/
theorem c9_reset_configuration (tl : Bool) (i : Inputs) (q : Quark)
    (hr : i.reset = false) :
    (clock_process tl i q).state = MState.WAIT_ALU_OR_MEM ∧
    (clock_process tl i q).PC = RESET_ADDR ∧
    (clock_process tl i q).cycles = 0 ∧
    (clock_process tl i q).aluShamt = 0 ∧
    (clock_process tl i q).aluReg = q.aluReg ∧
    (clock_process tl i q).registerFile = q.registerFile.set 0 0 := by
  simp [clock_process, hr]

/-- C9 (witness).  The amended reset theorem at a concrete state with a
nonzero register file. -/
theorem c9_witness :
    (clock_process false ⟨false, 0, false, false⟩
        { Q0 with state := MState.EXECUTE, cycles := 7,
                  registerFile := (List.replicate 32 0).set 6 9 }).state = MState.WAIT_ALU_OR_MEM ∧
    (clock_process false ⟨false, 0, false, false⟩
        { Q0 with state := MState.EXECUTE, cycles := 7,
                  registerFile := (List.replicate 32 0).set 6 9 }).PC = RESET_ADDR ∧
    (clock_process false ⟨false, 0, false, false⟩
        { Q0 with state := MState.EXECUTE, cycles := 7,
                  registerFile := (List.replicate 32 0).set 6 9 }).cycles = 0 ∧
    (clock_process false ⟨false, 0, false, false⟩
        { Q0 with state := MState.EXECUTE, cycles := 7,
                  registerFile := (List.replicate 32 0).set 6 9 }).aluShamt = 0 ∧
    (clock_process false ⟨false, 0, false, false⟩
        { Q0 with state := MState.EXECUTE, cycles := 7,
                  registerFile := (List.replicate 32 0).set 6 9 }).aluReg =
      ({ Q0 with state := MState.EXECUTE, cycles := 7,
                 registerFile := (List.replicate 32 0).set 6 9 } : Quark).aluReg ∧
    (clock_process false ⟨false, 0, false, false⟩
        { Q0 with state := MState.EXECUTE, cycles := 7,
                  registerFile := (List.replicate 32 0).set 6 9 }).registerFile =
      (((List.replicate 32 0).set 6 9 : List Nat)).set 0 0 :=
  c9_reset_configuration false ⟨false, 0, false, false⟩
    { Q0 with state := MState.EXECUTE, cycles := 7,
              registerFile := (List.replicate 32 0).set 6 9 } rfl

/-- One full cycle in `WAIT_ALU_OR_MEM` with a free bus: the FSM leaves for
`FETCH_INSTR` exactly when the pre-edge `aluShamt` is zero, and otherwise
the shifter decrements `aluShamt` (no latch can occur, since the
combinational evaluation deasserts `aluWr` outside `EXECUTE`). -/
lemma cycle_step_WAM (tl : Bool) (i : Inputs) (q : Quark)
    (hr : i.reset = true) (hrb : i.mem_rbusy = false) (hwb : i.mem_wbusy = false)
    (hst : q.state = MState.WAIT_ALU_OR_MEM) :
    ((cycle_step tl i q).state =
        if q.aluShamt = 0 then MState.FETCH_INSTR else MState.WAIT_ALU_OR_MEM) ∧
    ((cycle_step tl i q).aluShamt =
        if q.aluShamt = 0 then q.aluShamt
        else if tl && decide (rng q.aluShamt 4 2 ≠ 0) then (q.aluShamt + 28) % 2 ^ 5
        else (q.aluShamt + 31) % 2 ^ 5) := by
  have haw : (combinational_process i q).aluWr = false :=
    comb_aluWr_false i q (by simp [hst]) (by simp [hst])
  constructor
  · rw [cycle_step, clock_state tl i _ hr, comb_state, hst]
    simp only [comb_aluBusy, hrb, hwb]
    by_cases h0 : q.aluShamt = 0 <;> simp [h0]
  · rw [cycle_step, clock_aluShamt tl i _ hr (by rw [haw]; exact Bool.false_and _)]
    simp only [comb_aluShamt]

/-- Iterating the clocked process alone (no new latch pending) drives
`aluShamt` to zero within `aluShamt` steps, in both shifter modes. -/
lemma clock_iter_shamt (tl : Bool) (i : Inputs) (hr : i.reset = true) :
    ∀ m (q : Quark), (q.aluWr && q.funct3IsShift) = false → q.aluShamt < 32 →
      q.aluShamt ≤ m → ((clock_process tl i)^[m] q).aluShamt = 0 := by
  intro m
  induction m with
  | zero =>
      intro q hw hlt hle
      simpa using Nat.le_zero.mp hle
  | succ m ih =>
      intro q hw hlt hle
      rw [Function.iterate_succ_apply]
      have hw2 : ((clock_process tl i q).aluWr &&
          (clock_process tl i q).funct3IsShift) = false := by
        rw [(clock_keeps_aluWr tl i q).1, (clock_keeps_aluWr tl i q).2]
        exact hw
      have hs := clock_aluShamt tl i q hr hw
      apply ih _ hw2
      · rw [hs]
        split_ifs
        · omega
        · exact Nat.mod_lt _ (by norm_num)
        · exact Nat.mod_lt _ (by norm_num)
      · rw [hs]
        split_ifs with h0 h4
        · omega
        · simp only [Bool.and_eq_true, decide_eq_true_eq, rng] at h4
          have h4' := h4.2
          norm_num at h4'
          omega
        · omega

/-- With a free bus, a core sitting in `WAIT_ALU_OR_MEM` reaches
`FETCH_INSTR` within `aluShamt + 1` full cycles. -/
lemma leaves_wait_aux (tl : Bool) (i : Inputs)
    (hr : i.reset = true) (hrb : i.mem_rbusy = false) (hwb : i.mem_wbusy = false) :
    ∀ m (q : Quark), q.state = MState.WAIT_ALU_OR_MEM → q.aluShamt < 32 →
      q.aluShamt ≤ m →
      ∃ k, k ≤ m + 1 ∧ ((cycle_step tl i)^[k] q).state = MState.FETCH_INSTR := by
  intro m
  induction m with
  | zero =>
      intro q hst hlt hle
      refine ⟨1, le_refl 1, ?_⟩
      rw [Function.iterate_one, (cycle_step_WAM tl i q hr hrb hwb hst).1]
      simp [Nat.le_zero.mp hle]
  | succ m ih =>
      intro q hst hlt hle
      by_cases h0 : q.aluShamt = 0
      · refine ⟨1, by omega, ?_⟩
        rw [Function.iterate_one, (cycle_step_WAM tl i q hr hrb hwb hst).1]
        simp [h0]
      · obtain ⟨hS, hA⟩ := cycle_step_WAM tl i q hr hrb hwb hst
        have hst2 : (cycle_step tl i q).state = MState.WAIT_ALU_OR_MEM := by
          rw [hS]
          simp [h0]
        have hlt2 : (cycle_step tl i q).aluShamt < 32 := by
          rw [hA]
          split_ifs <;> first
            | omega
            | exact Nat.mod_lt _ (by norm_num)
        have hle2 : (cycle_step tl i q).aluShamt ≤ m := by
          rw [hA]
          split_ifs with h4
          · simp only [Bool.and_eq_true, decide_eq_true_eq, rng] at h4
            have h4' := h4.2
            norm_num at h4'
            omega
          · omega
        obtain ⟨k, hk, hks⟩ := ih (cycle_step tl i q) hst2 hlt2 hle2
        exact ⟨k + 1, by omega, by rw [Function.iterate_succ_apply]; exact hks⟩

/-- C10.  With reset high and a free bus, from `WAIT_ALU_OR_MEM` with
`aluShamt = n ≠ 0` and no new shift latched: a single clocked step strictly
decreases `aluShamt`, by exactly 1 or (two-level mode) 4, with no wrap;
iterating the clocked step `n` times (still with no latch) brings
`aluShamt` to 0; and the FSM reaches `FETCH_INSTR` within `n + 1` full
cycles, so every shift instruction terminates. -/
theorem c10_shift_termination (tl : Bool) (i : Inputs) (q : Quark) (n : Nat)
    (hr : i.reset = true) (hrb : i.mem_rbusy = false) (hwb : i.mem_wbusy = false)
    (hw : (q.aluWr && q.funct3IsShift) = false)
    (hn : q.aluShamt = n) (hne : n ≠ 0) (hlt : n < 32)
    (hst : q.state = MState.WAIT_ALU_OR_MEM) :
    ((clock_process tl i q).aluShamt < n ∧
      ((clock_process tl i q).aluShamt = n - 1 ∨ (clock_process tl i q).aluShamt = n - 4)) ∧
    ((clock_process tl i)^[n] q).aluShamt = 0 ∧
    ∃ k, k ≤ n + 1 ∧ ((cycle_step tl i)^[k] q).state = MState.FETCH_INSTR := by
  refine ⟨?_, clock_iter_shamt tl i hr n q hw (hn ▸ hlt) (le_of_eq hn), ?_⟩
  · rw [clock_aluShamt tl i q hr hw, hn]
    split_ifs with h0 h4
    · exact absurd h0 hne
    · simp only [Bool.and_eq_true, decide_eq_true_eq, rng] at h4
      have h4' := h4.2
      norm_num at h4'
      constructor
      · omega
      · right
        omega
    · constructor
      · omega
      · left
        omega
  · exact leaves_wait_aux tl i hr hrb hwb n q hst (hn ▸ hlt) (le_of_eq hn)

/-- C10 (witness).  The termination theorem at a concrete waiting state with
`aluShamt = 3` in single-step shifter mode. -/
theorem c10_witness :
    ((clock_process false ⟨true, 0, false, false⟩
        { Q0 with state := MState.WAIT_ALU_OR_MEM, aluShamt := 3 }).aluShamt < 3 ∧
      ((clock_process false ⟨true, 0, false, false⟩
          { Q0 with state := MState.WAIT_ALU_OR_MEM, aluShamt := 3 }).aluShamt = 3 - 1 ∨
        (clock_process false ⟨true, 0, false, false⟩
          { Q0 with state := MState.WAIT_ALU_OR_MEM, aluShamt := 3 }).aluShamt = 3 - 4)) ∧
    ((clock_process false ⟨true, 0, false, false⟩)^[3]
        { Q0 with state := MState.WAIT_ALU_OR_MEM, aluShamt := 3 }).aluShamt = 0 ∧
    ∃ k, k ≤ 3 + 1 ∧
      ((cycle_step false ⟨true, 0, false, false⟩)^[k]
        { Q0 with state := MState.WAIT_ALU_OR_MEM, aluShamt := 3 }).state =
        MState.FETCH_INSTR :=
  c10_shift_termination false ⟨true, 0, false, false⟩
    { Q0 with state := MState.WAIT_ALU_OR_MEM, aluShamt := 3 } 3
    rfl rfl rfl rfl rfl (by decide) (by decide) rfl
